import Mathlib

/-!
Verification development for the `safelib` scoped-import library
(`src/safelib/__init__.py`), a shallow embedding of its resolution-state
machine, scope guard and resolver, together with theorems settling the
specification's testable properties against the code.

Modelling conventions:
* Python module loading (`importlib.import_module`) is the external
  collaborator; it is modelled by an environment `PyEnv` mapping module
  names to optional symbol tables (`String → Option Nat`, symbol values
  abstracted as naturals).
* Python exceptions are modelled with `Except Err _`; the `try/except`
  blocks of the source become explicit matches filtered by which error
  classes the `except` clause catches.
* Python attribute aliasing matters here (`_State.main` / `_State.fallback`
  are mutable *class* attributes shared by every `_State` instance until an
  instance attribute shadows them), so scope-level operations are modelled
  on a small heap `World`: sentinel objects live at numeric ids, ids 0 and 1
  are the class-level sentinels of `_State`, and the global `state` object's
  possibly-shadowing instance attributes are `Option Nat` references.
-/

/-- Values a `_Sentinel.value` slot can hold in the source: `None`, a module
name string, or the `_Future` class object (stored by the `_main` /
`_fallback` control lookups). -/
inductive SVal where
  | nullv : SVal
  | strv : String → SVal
  | futureCls : SVal
deriving DecidableEq, Repr

/-- Python truthiness of a `_Sentinel.value`: `None` is falsy, a string is
truthy iff non-empty, the `_Future` class object is truthy. -/
def SVal.pyTruthy : SVal → Bool
  | .nullv => false
  | .strv s => !(s == "")
  | .futureCls => true

/-- Python's `name == value` where `name` is a `str` and `value` a stored
`SVal`: equal only when the slot holds that very string (comparison of a
string with `None` or with the `_Future` class is `False`). -/
def SVal.eqStr : SVal → String → Bool
  | .strv s, n => n == s
  | .nullv, _ => false
  | .futureCls, _ => false

/-- `_Sentinel`: value holder with `value`, `empty`, `future` flags
(source lines 36–64). -/
structure _Sentinel where
  value : SVal
  empty : Bool
  future : Bool
deriving DecidableEq, Repr

/-- The class-attribute initial state of a `_Sentinel`
(`value = None`, `empty = True`, `future = False`). -/
def _Sentinel.init : _Sentinel := ⟨.nullv, true, false⟩

/-- `_Sentinel.copy`: a value-semantics copy (records are values in the
embedding, so copy is the identity on data). -/
def _Sentinel.copy (s : _Sentinel) : _Sentinel := ⟨s.value, s.empty, s.future⟩

/-- `_Sentinel.reset`: back to the initial state. -/
def _Sentinel.reset (_ : _Sentinel) : _Sentinel := ⟨.nullv, true, false⟩

/-- Deferral consumption performed at the top of the ordinary-name branch of
`__getattr__` (source lines 233–241): if the sentinel is marked `future`,
its value becomes the looked-up name and the flag clears; `empty` is not
touched there. -/
def _Sentinel.consume (name : String) (s : _Sentinel) : _Sentinel :=
  if s.future then ⟨.strv name, s.empty, false⟩ else s

/-- A `_State`'s data as seen through one resolution call: the two sentinel
objects it references and its `_raise_exc` flag (source lines 67–95).
The class-level default of `_raise_exc` is `False` (line 75). -/
structure _State where
  main : _Sentinel
  fallback : _Sentinel
  raise_exc : Bool
deriving DecidableEq, Repr

/-- A freshly constructed `_State` as its class attributes present it. -/
def _State.init : _State := ⟨_Sentinel.init, _Sentinel.init, false⟩

/-- `_State.reset`: resets both sentinels; `_raise_exc` untouched. -/
def _State.reset (st : _State) : _State :=
  ⟨st.main.reset, st.fallback.reset, st.raise_exc⟩

/-- `_State.catch`: sets `_raise_exc = False`. -/
def _State.catch (st : _State) : _State := ⟨st.main, st.fallback, false⟩

/-- The `_State.raises` property as written in the source (lines 90–95): its
body evaluates `self._raise_exc` as a bare expression and has **no return
statement**, so the property call returns Python `None` whatever the flag
holds. Modelled as `Option Bool` to keep the `None` explicit. -/
def _State.raises (_ : _State) : Option Bool := Option.none

/-- Python truthiness of an optional boolean (`None` is falsy). -/
def optBoolTruthy : Option Bool → Bool
  | Option.none => false
  | Option.some b => b

/-- Exceptions the resolver can produce or propagate. -/
inductive Err where
  /-- `ImportError` / `ModuleNotFoundError` raised by `import_module`
  when the module cannot be loaded. -/
  | noModule : String → Err
  /-- the explicit `raise ImportError(f"Module ... not found")`
  (source line 255). -/
  | raisedNoModule : String → Err
  /-- the explicit `raise ImportError(f"Module ... has no attribute ...")`
  (source line 271). -/
  | raisedNoAttr : String → Err
  /-- `AttributeError` raised by `getattr` without a default. -/
  | attrError : String → Err
  /-- `TypeError` from `import_module` on a non-string argument. -/
  | typeErr : Err
deriving DecidableEq, Repr

/-- Which exceptions the outer
`except (ImportError, AttributeError, ModuleNotFoundError)` clause catches. -/
def Err.caughtByMainExcept : Err → Bool
  | .noModule _ => true
  | .raisedNoModule _ => true
  | .raisedNoAttr _ => true
  | .attrError _ => true
  | .typeErr => false

/-- Which exceptions the inner `except ImportError` clause
(source line 253) catches. -/
def Err.isImportError : Err → Bool
  | .noModule _ => true
  | .raisedNoModule _ => true
  | .raisedNoAttr _ => true
  | .attrError _ => false
  | .typeErr => false

/-- What the resolver returns on success (`SafeEntity` in the source). -/
inductive SafeEntity where
  /-- the loaded module object for a namespace name. -/
  | moduleObj : String → SafeEntity
  /-- an attribute value looked up inside a module. -/
  | attrVal : Nat → SafeEntity
  /-- the sentinel object returned by the `_main` / `_fallback` lookups. -/
  | sentinelObj : _Sentinel → SafeEntity
  /-- the `NotFound` marker class. -/
  | notFound : SafeEntity
  /-- the `_Future` marker class (returned when nothing is configured). -/
  | futureMarker : SafeEntity
  /-- Python `None` (implicit return of the `_reset` branch). -/
  | pynone : SafeEntity
deriving DecidableEq, Repr

/-- `Import.valid`: true iff the entity is not the `NotFound` marker
(source lines 129–140). -/
def Import.valid (e : SafeEntity) : Bool :=
  match e with
  | .notFound => false
  | _ => true

/-- The host's dynamic-loading facility: module name → optional symbol
table (symbol name → optional value). `Option.none` means the module
cannot be loaded. -/
structure PyEnv where
  modules : String → Option (String → Option Nat)

/-- `importlib.import_module` applied to a stored sentinel value: loading a
string name either yields the module's symbol table or raises
`ImportError`; a non-string argument raises `TypeError` (never caught by
the resolver's `except` clauses). -/
def importModule (env : PyEnv) (v : SVal) : Except Err (String → Option Nat) :=
  match v with
  | .strv s =>
    match env.modules s with
    | Option.some t => .ok t
    | Option.none => .error (.noModule s)
  | .nullv => .error .typeErr
  | .futureCls => .error .typeErr

/-- The `try` body of the ordinary-name branch (source lines 244–247):
if `name` equals the primary namespace's own name, import the namespace
itself; otherwise look `name` up inside the imported primary namespace
(`getattr` without default, so a missing attribute raises
`AttributeError`). -/
def mainAttempt (env : PyEnv) (name : String) (st : _State) :
    Except Err SafeEntity :=
  if st.main.value.eqStr name then
    match importModule env (.strv name) with
    | .ok _ => .ok (.moduleObj name)
    | .error e => .error e
  else
    match importModule env st.main.value with
    | .error e => .error e
    | .ok t =>
      match t name with
      | Option.some v => .ok (.attrVal v)
      | Option.none => .error (.attrError name)

/-- The `except (ImportError, AttributeError, ModuleNotFoundError)` handler
(source lines 248–275): the single fallback attempt with the self-reference
check, then the error policy. Note `state.raises` is the no-return property,
so `optBoolTruthy st.raises` is how each `if state.raises:` test evaluates. -/
def fallbackHandler (env : PyEnv) (name : String) (st : _State) :
    Except Err SafeEntity :=
  if !st.fallback.empty then
    if st.fallback.value.eqStr name then
      match importModule env (.strv name) with
      | .ok _ => .ok (.moduleObj name)
      | .error e =>
        if e.isImportError then
          if optBoolTruthy st.raises then .error (.raisedNoModule name)
          else .ok .notFound
        else .error e
    else
      if optBoolTruthy st.raises then
        -- `getattr(import_module(fallback.value), name)`; both the import
        -- failure and the missing attribute propagate as exceptions.
        match importModule env st.fallback.value with
        | .error e => .error e
        | .ok t =>
          match t name with
          | Option.some v => .ok (.attrVal v)
          | Option.none => .error (.attrError name)
      else
        -- `getattr(import_module(fallback.value), name, NotFound)`; the
        -- default only guards the attribute lookup — a failing
        -- `import_module` still raises here, uncaught.
        match importModule env st.fallback.value with
        | .error e => .error e
        | .ok t =>
          match t name with
          | Option.some v => .ok (.attrVal v)
          | Option.none => .ok .notFound
  else
    if optBoolTruthy st.raises then .error (.raisedNoAttr name)
    else .ok .notFound

/-- The configured-lookup part of `__getattr__` (source lines 243–276):
if the primary sentinel's value is truthy, run the `try` body and, on a
caught exception, the fallback handler; otherwise return the `_Future`
marker. -/
def resolveConfigured (env : PyEnv) (name : String) (st : _State) :
    Except Err SafeEntity :=
  if st.main.value.pyTruthy then
    match mainAttempt env name st with
    | .ok r => .ok r
    | .error e =>
      if e.caughtByMainExcept then fallbackHandler env name st
      else .error e
  else .ok .futureMarker

/-- The full `__getattr__(name, state)` resolver (source lines 204–276) on a
given `_State` view: the reserved control names `_reset` / `_main` /
`_fallback`, then deferral consumption, then configured lookup. Returns the
outcome together with the mutated state (the resolver mutates the sentinel
objects in place). -/
def resolveCore (env : PyEnv) (name : String) (st : _State) :
    Except Err SafeEntity × _State :=
  if name == "_reset" then
    -- `state.reset()` then fall off the function: implicit `None` return.
    (.ok .pynone, st.reset)
  else if name == "_main" then
    let m : _Sentinel := ⟨.futureCls, false, true⟩
    (.ok (.sentinelObj m), ⟨m, st.fallback, st.raise_exc⟩)
  else if name == "_fallback" then
    let f : _Sentinel := ⟨.futureCls, false, true⟩
    (.ok (.sentinelObj f), ⟨st.main, f, st.raise_exc⟩)
  else
    let st1 : _State :=
      ⟨st.main.consume name, st.fallback.consume name, st.raise_exc⟩
    (resolveConfigured env name st1, st1)

/-- The scope guard `Import` (source lines 117–201): it carries the
requested primary and fallback names; its `_old_state` snapshot is modelled
as the value `enterW` returns. -/
structure Import where
  main : String
  fallback : String
deriving DecidableEq, Repr

/-- Heap write at a sentinel id. -/
def hwrite (i : Nat) (d : _Sentinel) (h : Nat → _Sentinel) : Nat → _Sentinel :=
  fun j => if j = i then d else h j

/-- The process-wide picture. Sentinel objects live at heap ids; ids 0 and 1
are the class attributes `_State.main` / `_State.fallback` shared by every
`_State` instance that has not shadowed them. The global `state` object's
instance attributes (`instMain`, `instFallback`, created the first time
`Import.exit` assigns them, and `instRaise`, created by `catch`) shadow the
class attributes when present. In every world reachable from `World.fresh`
the ids referenced by `instMain` and `instFallback` are distinct (they are
allocated pairwise fresh by `exitW`), and distinct from each other's. -/
structure World where
  heap : Nat → _Sentinel
  nextId : Nat
  instMain : Option Nat
  instFallback : Option Nat
  instRaise : Option Bool

/-- The world at interpreter start: class sentinels at ids 0 and 1, both in
their initial empty state; the global `state = _State()` has no instance
attributes yet. -/
def World.fresh : World :=
  ⟨fun _ => _Sentinel.init, 2, Option.none, Option.none, Option.none⟩

/-- Which sentinel object `state.main` currently denotes: the instance
attribute if assigned, else the class attribute at id 0. -/
def World.mainId (w : World) : Nat := w.instMain.getD 0

/-- Which sentinel object `state.fallback` currently denotes. -/
def World.fbId (w : World) : Nat := w.instFallback.getD 1

/-- The data of the sentinel the global state's `main` denotes. -/
def World.mainSent (w : World) : _Sentinel := w.heap w.mainId

/-- The data of the sentinel the global state's `fallback` denotes. -/
def World.fbSent (w : World) : _Sentinel := w.heap w.fbId

/-- The global state's `_raise_exc` as attribute lookup sees it: instance
attribute if present, else the class default `False`. -/
def World.raiseFlag (w : World) : Bool := w.instRaise.getD false

/-- `state.catch()`: writes the instance attribute `_raise_exc = False` on
the global state. -/
def catchW (w : World) : World :=
  ⟨w.heap, w.nextId, w.instMain, w.instFallback, Option.some false⟩

/-- `Import.__init__(main, fallback, raises)` (source lines 122–127): builds
the handle; when `raises` is false it calls `state.catch()` on the live
state at construction time, otherwise it touches nothing. -/
def Import.make (main fallback : String) (raises : Bool) (w : World) :
    Import × World :=
  (⟨main, fallback⟩, if raises then w else catchW w)

/-- `Import.enter` (source lines 142–155): snapshot copies of the live
`state.main` / `state.fallback` sentinels (stored in `_old_state`), then
in-place mutation of those same sentinel objects to the scope's names with
`empty = False`, `future = False`. Returns the snapshot pair and the new
world. -/
def Import.enterW (imp : Import) (w : World) :
    (_Sentinel × _Sentinel) × World :=
  let snap := (w.mainSent.copy, w.fbSent.copy)
  let h1 := hwrite w.mainId ⟨.strv imp.main, false, false⟩ w.heap
  let h2 := hwrite w.fbId ⟨.strv imp.fallback, false, false⟩ h1
  (snap, ⟨h2, w.nextId, w.instMain, w.instFallback, w.instRaise⟩)

/-- `Import.exit` (source lines 157–159), invoked unconditionally by
`__exit__` / `__aexit__` whether the body completed or raised: assigns
`state.main = old.main.copy()` and `state.fallback = old.fallback.copy()`.
Each `copy()` allocates a fresh sentinel object, and the assignments create
(or overwrite) the *instance* attributes of the global state; the class
sentinels at ids 0 and 1 are not touched. `_raise_exc` is not assigned. -/
def exitW (snap : _Sentinel × _Sentinel) (w : World) : World :=
  let i := w.nextId
  let j := w.nextId + 1
  ⟨hwrite j snap.2.copy (hwrite i snap.1.copy w.heap), w.nextId + 2,
    Option.some i, Option.some j, w.instRaise⟩

/-- Module-level attribute access `safelib.<name>`: Python calls the module
`__getattr__` with the name alone, so `state=None` and line 215 constructs a
**fresh** `_State()`. The fresh instance's `main` / `fallback` resolve to
the class sentinels at ids 0 and 1 and its `_raise_exc` to the class default
`False`; the resolver's in-place mutations land on those class sentinels. -/
def moduleGetattrW (env : PyEnv) (name : String) (w : World) :
    Except Err SafeEntity × World :=
  let st : _State := ⟨w.heap 0, w.heap 1, false⟩
  let (r, st1) := resolveCore env name st
  (r, ⟨hwrite 1 st1.fallback (hwrite 0 st1.main w.heap), w.nextId,
    w.instMain, w.instFallback, w.instRaise⟩)

/-- Attribute access through a scope handle (`importer.<name>`, i.e.
`Import.__getattr__` / `get_entity`, source lines 167–201): delegates to the
resolver with the **global** `state`, so it reads and writes whatever
sentinel objects that state currently denotes. -/
def scopeGetattrW (env : PyEnv) (name : String) (w : World) :
    Except Err SafeEntity × World :=
  let st : _State := ⟨w.mainSent, w.fbSent, w.raiseFlag⟩
  let (r, st1) := resolveCore env name st
  (r, ⟨hwrite w.fbId st1.fallback (hwrite w.mainId st1.main w.heap),
    w.nextId, w.instMain, w.instFallback, w.instRaise⟩)

/-- One step of scope-level activity, for stating frame properties over
arbitrary interleavings of the public operations. -/
inductive ScopeOp where
  | make : String → String → Bool → ScopeOp
  | enter : Import → ScopeOp
  | exitScope : _Sentinel → _Sentinel → ScopeOp
  | moduleLookup : PyEnv → String → ScopeOp
  | scopeLookup : PyEnv → String → ScopeOp

/-- Run one scope-level operation (the snapshot an `enter` produces is
dropped here; `exitScope` carries the snapshot it restores). -/
def ScopeOp.run (op : ScopeOp) (w : World) : World :=
  match op with
  | .make m f raises => (Import.make m f raises w).2
  | .enter imp => (imp.enterW w).2
  | .exitScope s1 s2 => exitW (s1, s2) w
  | .moduleLookup env n => (moduleGetattrW env n w).2
  | .scopeLookup env n => (scopeGetattrW env n w).2

/-- Run a sequence of scope-level operations. -/
def runOps (ops : List ScopeOp) (w : World) : World :=
  match ops with
  | [] => w
  | op :: rest => runOps rest (op.run w)

/-! Concrete environments and states used by the closed theorems and the
witnesses. -/

/-- Environment with module `p` defining only `s ↦ 1` and module `f`
defining `s ↦ 2` and `t ↦ 3`; everything else unloadable. -/
def envPF : PyEnv :=
  ⟨fun m =>
    if m = "p" then
      Option.some (fun a => if a = "s" then Option.some 1 else Option.none)
    else if m = "f" then
      Option.some (fun a =>
        if a = "s" then Option.some 2
        else if a = "t" then Option.some 3 else Option.none)
    else Option.none⟩

/-- The live state inside a scope opened over primary `p`, fallback `f`. -/
def stPF : _State :=
  ⟨⟨.strv "p", false, false⟩, ⟨.strv "f", false, false⟩, false⟩

/-- A default-policy state whose primary was set to `p` and whose fallback
was never assigned. -/
def stP : _State := ⟨⟨.strv "p", false, false⟩, _Sentinel.init, false⟩

/-- Environment where `p` loads (defining only `a ↦ 1`) and `g` cannot be
loaded. -/
def envPG : PyEnv :=
  ⟨fun m =>
    if m = "p" then
      Option.some (fun a => if a = "a" then Option.some 1 else Option.none)
    else Option.none⟩

/-- Environment where only the module `typing` loads (empty symbol table). -/
def envTy : PyEnv :=
  ⟨fun m =>
    if m = "typing" then Option.some (fun _ => Option.none) else Option.none⟩

/-- Environment for the stale-class-sentinel scenarios: `p` defines
`s ↦ 1`, `q` defines `s ↦ 10`, `f` and `r` load with empty tables. -/
def env6 : PyEnv :=
  ⟨fun m =>
    if m = "p" then
      Option.some (fun a => if a = "s" then Option.some 1 else Option.none)
    else if m = "q" then
      Option.some (fun a => if a = "s" then Option.some 10 else Option.none)
    else if m = "f" then Option.some (fun _ => Option.none)
    else if m = "r" then Option.some (fun _ => Option.none)
    else Option.none⟩

/-- Fresh world after `Import("p", "f")` entered (scope A open). -/
def wOpenA : World := (Import.enterW ⟨"p", "f"⟩ World.fresh).2

/-- The snapshot scope A took at entry. -/
def snapA : _Sentinel × _Sentinel := (Import.enterW ⟨"p", "f"⟩ World.fresh).1

/-- World after scope A exited. -/
def wClosedA : World := exitW snapA wOpenA

/-- World after a second scope `Import("q", "r")` entered (scope B open),
following the closed scope A. -/
def wOpenB : World := (Import.enterW ⟨"q", "r"⟩ wClosedA).2

/-- C1: the claim says a scope opened with `raises=true` over loadable
namespaces `p`, `f` neither of which defines `missing` raises on
`resolve("missing")` and never returns the `NotFound` marker. The code does
the opposite: `Import("p","f", raises=True)` leaves `_raise_exc` untouched
and the `raises` property returns `None` (no return statement), so every
`if state.raises:` test is falsy and the lookup returns `NotFound` without
raising. -/
theorem C1_raising_mode_returns_notFound :
    (scopeGetattrW envPF "missing"
        ((Import.make "p" "f" true World.fresh).1.enterW
          (Import.make "p" "f" true World.fresh).2).2).1
      = Except.ok SafeEntity.notFound := by
  rfl

/-- C2: the claim says that with `raiseOnFailure` false every unsatisfiable
lookup returns the `NotFound` marker and nothing is raised, for primary and
fallback attempts alike. Counter-scenario from the code: under
`Import("p","g", raises=False)` with `p` loadable but lacking `x` and `g`
unloadable, the fallback attempt evaluates
`getattr(import_module("g"), "x", NotFound)` — the `NotFound` default only
guards the attribute lookup, so the `ImportError` from `import_module("g")`
propagates uncaught even in silent mode. -/
theorem C2_silent_mode_raises_on_unloadable_fallback :
    (scopeGetattrW envPG "x"
        ((Import.make "p" "g" false World.fresh).1.enterW
          (Import.make "p" "g" false World.fresh).2).2).1
      = Except.error (Err.noModule "g") := by
  rfl

/-- C6: the claim says module-level lookup always acts on the live
process-wide state. In the code, module-level access calls
`__getattr__(name)` with `state=None`, which builds a **fresh** `_State()`
whose sentinels are the class attributes (heap ids 0 and 1). After scope A
(`p`/`f`) has closed — which shadowed the global state with instance
attributes — and scope B (`q`/`r`) is open, the live state resolves `s`
against `q` (value 10) while the module-level lookup still resolves against
the stale class sentinel `p` (value 1). -/
theorem C6_module_lookup_ignores_live_state :
    (moduleGetattrW env6 "s" wOpenB).1 = Except.ok (SafeEntity.attrVal 1) ∧
    (scopeGetattrW env6 "s" wOpenB).1 = Except.ok (SafeEntity.attrVal 10) := by
  exact ⟨rfl, rfl⟩

/-- C7: the claim says that after a scope closes, a module-level
`resolve(name)` on a fresh process behaves as if no scope had opened,
returning the `Future` marker. In the code, entering `Import("p","f")`
mutated the class-level sentinels in place, and `exit` only installed
restored copies as *instance* attributes of the global state; the fresh
`_State()` a module-level lookup builds still sees `p` in the class
sentinel and resolves `p` as a namespace import instead of returning the
`Future` marker (which is what the same lookup yields on the truly fresh
world). -/
theorem C7_module_lookup_after_close_not_future :
    (moduleGetattrW envPF "p" wClosedA).1
        = Except.ok (SafeEntity.moduleObj "p") ∧
    (moduleGetattrW envPF "p" World.fresh).1
        = Except.ok SafeEntity.futureMarker := by
  exact ⟨rfl, rfl⟩

/-- C5 counterexample: the claim says a freshly created `ResolutionState`
has `raiseOnFailure` true and a failed lookup on it raises rather than
returning `NotFound`. In the code the class default is
`_raise_exc: bool = False`, and a failed lookup under the default policy
(here: primary `p` loaded but lacking `missing`, fallback never assigned)
returns the `NotFound` marker instead of raising. -/
theorem C5_counterexample_default_is_not_raising :
    _State.init.raise_exc = false ∧
    (resolveCore envPF "missing" stP).1 = Except.ok SafeEntity.notFound := by
  exact ⟨rfl, rfl⟩

/-- C3: resolution is primary-first with exactly one fallback attempt.
For a state whose sentinels hold `P` and `F`, and an ordinary symbol `name`
distinct from both namespace names: (1) when the primary namespace loads
and defines `name`, its value is returned (whatever the fallback holds);
(2) when the primary loads but lacks `name` and the fallback loads and
defines it, the fallback's value is returned; (3) likewise when the primary
fails to load outright. The fallback is a single deterministic second
attempt — each outcome is a function of the state and environment. -/
theorem C3_primary_first_single_fallback
    (env : PyEnv) (name P F : String) (st : _State)
    (hmain : st.main = ⟨.strv P, false, false⟩)
    (hfb : st.fallback = ⟨.strv F, false, false⟩)
    (h1 : name ≠ "_reset") (h2 : name ≠ "_main") (h3 : name ≠ "_fallback")
    (hP : name ≠ P) (hF : name ≠ F) (hPne : P ≠ "") :
    (∀ tp v, env.modules P = Option.some tp → tp name = Option.some v →
      (resolveCore env name st).1 = Except.ok (.attrVal v)) ∧
    (∀ tp tf w, env.modules P = Option.some tp → tp name = Option.none →
      env.modules F = Option.some tf → tf name = Option.some w →
      (resolveCore env name st).1 = Except.ok (.attrVal w)) ∧
    (∀ tf w, env.modules P = Option.none →
      env.modules F = Option.some tf → tf name = Option.some w →
      (resolveCore env name st).1 = Except.ok (.attrVal w)) := by
  refine ⟨?_, ?_, ?_⟩
  · intro tp v htp hv
    simp [resolveCore, resolveConfigured, mainAttempt, fallbackHandler,
      _Sentinel.consume, SVal.eqStr, SVal.pyTruthy, importModule,
      hmain, hfb, h1, h2, h3, hP, hF, hPne, htp, hv]
  · intro tp tf w htp hv htf hw
    simp [resolveCore, resolveConfigured, mainAttempt, fallbackHandler,
      Err.caughtByMainExcept, _Sentinel.consume, SVal.eqStr, SVal.pyTruthy,
      importModule, _State.raises, optBoolTruthy,
      hmain, hfb, h1, h2, h3, hP, hF, hPne, htp, hv, htf, hw]
  · intro tf w htp htf hw
    simp [resolveCore, resolveConfigured, mainAttempt, fallbackHandler,
      Err.caughtByMainExcept, _Sentinel.consume, SVal.eqStr, SVal.pyTruthy,
      importModule, _State.raises, optBoolTruthy,
      hmain, hfb, h1, h2, h3, hP, hF, hPne, htp, htf, hw]

/-- Witness for C3 at the concrete environment `envPF` and scope state
`stPF`: both namespaces define `s`, so primary's value 1 wins; only the
fallback defines `t`, so its value 3 is returned; with an unloadable
primary `q`, the fallback's `t` is returned. -/
theorem C3_primary_first_witness :
    (resolveCore envPF "s" stPF).1 = Except.ok (SafeEntity.attrVal 1) ∧
    (resolveCore envPF "t" stPF).1 = Except.ok (SafeEntity.attrVal 3) ∧
    (resolveCore envPF "t"
        ⟨⟨.strv "q", false, false⟩, ⟨.strv "f", false, false⟩, false⟩).1
      = Except.ok (SafeEntity.attrVal 3) := by
  refine ⟨?_, ?_, ?_⟩
  · exact (C3_primary_first_single_fallback envPF "s" "p" "f" stPF rfl rfl
      (by decide) (by decide) (by decide) (by decide) (by decide)
      (by decide)).1 _ 1 rfl rfl
  · exact (C3_primary_first_single_fallback envPF "t" "p" "f" stPF rfl rfl
      (by decide) (by decide) (by decide) (by decide) (by decide)
      (by decide)).2.1 _ _ 3 rfl rfl rfl rfl
  · exact (C3_primary_first_single_fallback envPF "t" "q" "f" _ rfl rfl
      (by decide) (by decide) (by decide) (by decide) (by decide)
      (by decide)).2.2 _ 3 rfl rfl rfl

/-- C4: enter/exit round-trip. (1) For any live world and any scope, `exit`
after `enter` restores the sentinel data the global state's primary and
fallback held before `enter`, via fresh copies, whatever happened to the
world in between (`wBody` is arbitrary, covering bodies that completed or
failed — `__exit__` runs `exit` unconditionally). (2) Nesting: opening
scope B inside scope A and closing B leaves the live sentinels holding
exactly A's primary and fallback configuration. The hypothesis `hne` states
that the global state's two sentinel references are distinct objects, true
in every reachable world. -/
theorem C4_enter_exit_roundtrip
    (w wBody : World) (imp A B : Import)
    (hne : w.mainId ≠ w.fbId) :
    ((exitW (imp.enterW w).1 wBody).mainSent = w.mainSent ∧
     (exitW (imp.enterW w).1 wBody).fbSent = w.fbSent) ∧
    ((exitW (B.enterW (A.enterW w).2).1 (B.enterW (A.enterW w).2).2).mainSent
        = ⟨.strv A.main, false, false⟩ ∧
     (exitW (B.enterW (A.enterW w).2).1 (B.enterW (A.enterW w).2).2).fbSent
        = ⟨.strv A.fallback, false, false⟩) := by
  obtain ⟨heap, nid, im, ifb, ir⟩ := w
  cases im <;> cases ifb <;>
    simp only [World.mainId, World.fbId, Option.getD_some,
      Option.getD_none] at hne <;>
    refine ⟨⟨?_, ?_⟩, ?_, ?_⟩ <;>
      simp [exitW, Import.enterW, World.mainSent, World.fbSent, World.mainId,
        World.fbId, hwrite, _Sentinel.copy, hne, Option.getD]

/-- Witness for C4 on the fresh world with scopes `("a","b")` (outer) and
`("c","d")` (inner). -/
theorem C4_enter_exit_roundtrip_witness :
    ((exitW (Import.enterW ⟨"a", "b"⟩ World.fresh).1 World.fresh).mainSent
        = World.fresh.mainSent ∧
     (exitW (Import.enterW ⟨"a", "b"⟩ World.fresh).1 World.fresh).fbSent
        = World.fresh.fbSent) ∧
    ((exitW
        (Import.enterW ⟨"c", "d"⟩ (Import.enterW ⟨"a", "b"⟩ World.fresh).2).1
        (Import.enterW ⟨"c", "d"⟩
          (Import.enterW ⟨"a", "b"⟩ World.fresh).2).2).mainSent
        = ⟨.strv "a", false, false⟩ ∧
     (exitW
        (Import.enterW ⟨"c", "d"⟩ (Import.enterW ⟨"a", "b"⟩ World.fresh).2).1
        (Import.enterW ⟨"c", "d"⟩
          (Import.enterW ⟨"a", "b"⟩ World.fresh).2).2).fbSent
        = ⟨.strv "b", false, false⟩) :=
  C4_enter_exit_roundtrip World.fresh World.fresh ⟨"a", "b"⟩ ⟨"a", "b"⟩
    ⟨"c", "d"⟩ (by decide)

/-- C5 amended: the error policy defaults to **not** raising. A freshly
created `_State` has `_raise_exc = false` (class default, source line 75),
and a failed lookup under the default policy — primary `P` loaded but
lacking `name`, fallback never assigned — returns the `NotFound` marker
rather than raising. -/
theorem C5_default_policy_returns_notFound
    (env : PyEnv) (name P : String) (tp : String → Option Nat)
    (h1 : name ≠ "_reset") (h2 : name ≠ "_main") (h3 : name ≠ "_fallback")
    (hP : name ≠ P) (hPne : P ≠ "")
    (htp : env.modules P = Option.some tp) (hv : tp name = Option.none) :
    _State.init.raise_exc = false ∧
    (resolveCore env name
        ⟨⟨.strv P, false, false⟩, _Sentinel.init, _State.init.raise_exc⟩).1
      = Except.ok SafeEntity.notFound := by
  refine ⟨rfl, ?_⟩
  simp [resolveCore, resolveConfigured, mainAttempt, fallbackHandler,
    Err.caughtByMainExcept, _Sentinel.consume, _Sentinel.init, _State.init,
    SVal.eqStr, SVal.pyTruthy, importModule, _State.raises, optBoolTruthy,
    h1, h2, h3, hP, hPne, htp, hv]

/-- Witness for C5 (amended) at `envPF`, primary `p`, symbol `missing`. -/
theorem C5_default_policy_witness :
    _State.init.raise_exc = false ∧
    (resolveCore envPF "missing"
        ⟨⟨.strv "p", false, false⟩, _Sentinel.init, _State.init.raise_exc⟩).1
      = Except.ok SafeEntity.notFound :=
  C5_default_policy_returns_notFound envPF "missing" "p" _
    (by decide) (by decide) (by decide) (by decide) (by decide) rfl rfl

/-- C8: the deferred assignment idiom. Looking up `_main` sets the primary
sentinel to `{value = Future marker, empty = false, future = true}` and
returns that sentinel; the next ordinary lookup `N` consumes the deferral —
the primary sentinel becomes `{value = N, empty = false, future = false}` —
and the very same call resolves `N` as a namespace import (since `N` now
equals the primary's own name), returning the loaded module. -/
theorem C8_deferred_assignment_idiom
    (env : PyEnv) (st : _State) (N : String) (tn : String → Option Nat)
    (h1 : N ≠ "_reset") (h2 : N ≠ "_main") (h3 : N ≠ "_fallback")
    (hfb : st.fallback.future = false)
    (htn : env.modules N = Option.some tn) (hNne : N ≠ "") :
    (resolveCore env "_main" st).1
        = Except.ok (.sentinelObj ⟨.futureCls, false, true⟩) ∧
    (resolveCore env "_main" st).2.main = ⟨.futureCls, false, true⟩ ∧
    (resolveCore env N (resolveCore env "_main" st).2).1
        = Except.ok (.moduleObj N) ∧
    (resolveCore env N (resolveCore env "_main" st).2).2.main
        = ⟨.strv N, false, false⟩ := by
  refine ⟨rfl, rfl, ?_, ?_⟩ <;>
    simp [resolveCore, resolveConfigured, mainAttempt, _Sentinel.consume,
      SVal.eqStr, SVal.pyTruthy, importModule, h1, h2, h3, hfb, htn, hNne]

/-- Witness for C8: `_main` then `typing` on the initial state, in an
environment where `typing` is loadable. -/
theorem C8_deferred_assignment_witness :
    (resolveCore envTy "_main" _State.init).1
        = Except.ok (.sentinelObj ⟨.futureCls, false, true⟩) ∧
    (resolveCore envTy "_main" _State.init).2.main = ⟨.futureCls, false, true⟩ ∧
    (resolveCore envTy "typing" (resolveCore envTy "_main" _State.init).2).1
        = Except.ok (.moduleObj "typing") ∧
    (resolveCore envTy "typing" (resolveCore envTy "_main" _State.init).2).2.main
        = ⟨.strv "typing", false, false⟩ :=
  C8_deferred_assignment_idiom envTy _State.init "typing" _
    (by decide) (by decide) (by decide) rfl rfl (by decide)

/-- C9: self-reference resolves the namespace itself. (1) When the primary
sentinel holds `P` and `P` is loadable, `resolve(P)` returns the module
object for `P` itself. (2) The same check is honored during the fallback
attempt: when the primary attempt for `F` fails (primary `P` loads but
lacks `F`) and the fallback sentinel holds `F` with `F` loadable,
`resolve(F)` returns the module object for `F`. -/
theorem C9_self_reference
    (env : PyEnv) (P F : String) (st : _State)
    (hmain : st.main = ⟨.strv P, false, false⟩)
    (hfbv : st.fallback = ⟨.strv F, false, false⟩)
    (hP1 : P ≠ "_reset") (hP2 : P ≠ "_main") (hP3 : P ≠ "_fallback")
    (hF1 : F ≠ "_reset") (hF2 : F ≠ "_main") (hF3 : F ≠ "_fallback")
    (hPne : P ≠ "") :
    (∀ tp, env.modules P = Option.some tp →
      (resolveCore env P st).1 = Except.ok (.moduleObj P)) ∧
    (∀ tp tf, F ≠ P → env.modules P = Option.some tp → tp F = Option.none →
      env.modules F = Option.some tf →
      (resolveCore env F st).1 = Except.ok (.moduleObj F)) := by
  constructor
  · intro tp htp
    simp [resolveCore, resolveConfigured, mainAttempt, _Sentinel.consume,
      SVal.eqStr, SVal.pyTruthy, importModule, hmain, hP1, hP2, hP3, hPne,
      htp]
  · intro tp tf hFP htp hpF htf
    simp [resolveCore, resolveConfigured, mainAttempt, fallbackHandler,
      Err.caughtByMainExcept, Err.isImportError, _Sentinel.consume,
      SVal.eqStr, SVal.pyTruthy, importModule, _State.raises, optBoolTruthy,
      hmain, hfbv, hF1, hF2, hF3, hFP, hPne, htp, hpF, htf]

/-- Witness for C9 at `envPF` under scope `("p", "f")`: resolving `p` gives
module `p`; resolving `f` (absent as a symbol of `p`) gives module `f` via
the fallback self-reference check. -/
theorem C9_self_reference_witness :
    (resolveCore envPF "p" stPF).1 = Except.ok (SafeEntity.moduleObj "p") ∧
    (resolveCore envPF "f" stPF).1 = Except.ok (SafeEntity.moduleObj "f") := by
  constructor
  · exact (C9_self_reference envPF "p" "f" stPF rfl rfl (by decide)
      (by decide) (by decide) (by decide) (by decide) (by decide)
      (by decide)).1 _ rfl
  · exact (C9_self_reference envPF "p" "f" stPF rfl rfl (by decide)
      (by decide) (by decide) (by decide) (by decide) (by decide)
      (by decide)).2 _ _ (by decide) rfl rfl rfl

/-- Every public scope-level operation leaves a false error-policy flag
false: `make` with `raises=true` does not touch the world, `make` with
`raises=false` sets the flag to false, and `enter`, `exit` and both lookup
entry points never assign `_raise_exc`. -/
theorem ScopeOp.run_keeps_flag_false (op : ScopeOp) (w : World)
    (h : w.raiseFlag = false) : (op.run w).raiseFlag = false := by
  cases op with
  | make m f raises =>
    cases raises
    · simp [ScopeOp.run, Import.make, catchW, World.raiseFlag]
    · exact h
  | enter imp => simpa [ScopeOp.run, Import.enterW, World.raiseFlag] using h
  | exitScope s1 s2 => simpa [ScopeOp.run, exitW, World.raiseFlag] using h
  | moduleLookup env n =>
    simpa [ScopeOp.run, moduleGetattrW, World.raiseFlag] using h
  | scopeLookup env n =>
    simpa [ScopeOp.run, scopeGetattrW, World.raiseFlag] using h

/-- A false error-policy flag stays false across any sequence of
scope-level operations. -/
theorem runOps_keeps_flag_false (ops : List ScopeOp) (w : World)
    (h : w.raiseFlag = false) : (runOps ops w).raiseFlag = false := by
  induction ops generalizing w with
  | nil => exact h
  | cons op rest ih => exact ih _ (op.run_keeps_flag_false w h)

/-- C10: the error-policy flag survives scope exit. `exit` assigns only the
two sentinel references and leaves `_raise_exc` unchanged; constructing
`Import` with `raises=true` does not write anything at all; constructing it
with `raises=false` calls `catch()` on the live state, after which the flag
reads false and remains false across every subsequent scope-level operation
(enter, exit, further constructions, module- or scope-level lookups) —
nothing in the code ever sets it back to true. -/
theorem C10_raise_flag_survives_exit
    (w : World) (snap : _Sentinel × _Sentinel) (m f : String)
    (ops : List ScopeOp) :
    (exitW snap w).instRaise = w.instRaise ∧
    (Import.make m f true w).2 = w ∧
    (Import.make m f false w).2.raiseFlag = false ∧
    (runOps ops (Import.make m f false w).2).raiseFlag = false := by
  refine ⟨rfl, rfl, ?_, ?_⟩
  · simp [Import.make, catchW, World.raiseFlag]
  · exact runOps_keeps_flag_false ops _
      (by simp [Import.make, catchW, World.raiseFlag])
